import Mathlib

set_option maxRecDepth 10000

/-!
Verification development for the basketball video-analysis backend
(clip windowing, trajectory heuristic classifier, stats scoring engine,
session storage, evaluation harness).

The Python source is shallowly embedded: machine floats are modelled as
exact rationals, dictionaries as ordered association lists, and the
append-only session file as an optional list of records.
-/

namespace SugarRun

/-- Python substring test `sub in s`, on the underlying character lists.
`listInfix sub l` is true iff `sub` occurs contiguously inside `l`
(the empty list occurs in every list, as in Python). -/
def listInfix (sub : List Char) : List Char → Bool
  | [] => sub.isEmpty
  | c :: rest => sub.isPrefixOf (c :: rest) || listInfix sub rest

/-- Python `sub in s` for strings. -/
def strContains (s sub : String) : Bool :=
  listInfix sub.toList s.toList

/-- Python `str.upper()` (the labels involved are ASCII, where
`Char.toUpper` and Python agree). -/
def strUpper (s : String) : String :=
  String.mk (s.data.map Char.toUpper)

/-- Python `str.lower()` (ASCII labels, as above). -/
def strLower (s : String) : String :=
  String.mk (s.data.map Char.toLower)

/-- Python `int()` applied to a float: truncation toward zero
(the rational's numerator T-divided by its denominator). -/
def pyInt (q : ℚ) : ℤ :=
  q.num.tdiv (q.den : ℤ)

/-- Python list slice `l[k:]`; a negative `k` counts from the end. -/
def pySliceFrom (l : List α) (k : ℤ) : List α :=
  if 0 ≤ k then l.drop k.toNat else l.drop ((l.length : ℤ) + k).toNat

/-- Lookup in an ordered association list (Python `dict[key]` as `Option`). -/
def alookup (key : String) : List (String × α) → Option α
  | [] => none
  | (k, v) :: rest => if k = key then some v else alookup key rest

/-- Python `dict.get(key, default)`. -/
def alookupD (key : String) (l : List (String × α)) (d : α) : α :=
  (alookup key l).getD d

/-! ## Stats Scoring Engine (`services/stats_calculation_service.py`) -/

/-- Action-keyword mapping: canonical basketball event categories to
keyword lists (`DEFAULT_ACTION_KEYWORDS` shape, overridable per classifier). -/
structure ActionKeywords where
  shooting : List String
  passing : List String
  dribbling : List String
  dunking : List String
  blocking : List String
  catching : List String

/-- Source constant `DEFAULT_ACTION_KEYWORDS` from `stats_calculation_service.py`. -/
def DEFAULT_ACTION_KEYWORDS : ActionKeywords :=
  { shooting := ["shooting", "throw", "toss"]
    passing := ["passing", "hand", "throw"]
    dribbling := ["dribbling", "bounce"]
    dunking := ["dunk", "slam"]
    blocking := ["block", "defend"]
    catching := ["catch", "grab"] }

/-- The YOLO classifier's own keyword mapping
(`YOLOBallTrackingClassifier.get_basketball_stats_mapping`). -/
def yoloActionKeywords : ActionKeywords :=
  { shooting := ["shooting basketball", "throw", "shot"]
    passing := ["passing basketball", "pass"]
    dribbling := ["dribbling basketball", "dribble"]
    dunking := ["dunk", "slam"]
    blocking := ["block", "defend"]
    catching := ["catching basketball", "catch"] }

/-- Confidence-threshold configuration (`config.py` environment-backed
values `CONFIDENCE_THRESHOLD_SHOT/_ASSIST/_BLOCK`). -/
structure Config where
  shotThreshold : ℚ
  assistThreshold : ℚ
  blockThreshold : ℚ

/-- The default configuration values from `config.py`. -/
def defaultConfig : Config :=
  { shotThreshold := 1/2, assistThreshold := 2/5, blockThreshold := 9/20 }

/-- The `ScoringRule` dataclass. -/
structure ScoringRule where
  stat_name : String
  points_value : ℤ
  label : String
  confidence_threshold : ℚ
  keyword_getter : ActionKeywords → List String

/-- Source method `ScoringRule.matches`: some selected keyword is a substring of the
lowercased action label. -/
def ScoringRule.matchesAction (r : ScoringRule) (actionLower : String)
    (ba : ActionKeywords) : Bool :=
  (r.keyword_getter ba).any (fun k => strContains actionLower k)

/-- First entry of `SCORING_RULES`: shooting-or-dunking keywords award
+2 to "points" above the shot threshold. -/
def shotRule (cfg : Config) : ScoringRule :=
  { stat_name := "points", points_value := 2, label := "SHOT (+2 points)"
    confidence_threshold := cfg.shotThreshold
    keyword_getter := fun ba => ba.shooting ++ ba.dunking }

/-- Second entry of `SCORING_RULES`: passing keywords award +1 to
"assists" above the assist threshold. -/
def assistRule (cfg : Config) : ScoringRule :=
  { stat_name := "assists", points_value := 1, label := "ASSIST (+1)"
    confidence_threshold := cfg.assistThreshold
    keyword_getter := fun ba => ba.passing }

/-- Third entry of `SCORING_RULES`: blocking keywords award +1 to
"blocks" above the block threshold. -/
def blockRule (cfg : Config) : ScoringRule :=
  { stat_name := "blocks", points_value := 1, label := "BLOCK (+1)"
    confidence_threshold := cfg.blockThreshold
    keyword_getter := fun ba => ba.blocking }

/-- The ordered `SCORING_RULES` list. -/
def SCORING_RULES (cfg : Config) : List ScoringRule :=
  [shotRule cfg, assistRule cfg, blockRule cfg]

/-- Source helper `_build_initial_stats`: zeroed stats dict built from `SCORING_RULES`. -/
def buildInitialStats (cfg : Config) : List (String × ℤ) :=
  (SCORING_RULES cfg).map (fun r => (r.stat_name, (0 : ℤ)))

/-- Python `stats[name] += v` on an ordered dict whose key `name` is
present (all rule stat names are keys of the initial stats). -/
def incrStat (stats : List (String × ℤ)) (name : String) (v : ℤ) :
    List (String × ℤ) :=
  stats.map (fun p => if p.1 = name then (p.1, p.2 + v) else p)

/-- A detection as consumed by `calculate_stats` (the `action` and
`confidence` fields of the detection dict). -/
structure DetIn where
  action : String
  confidence : ℚ

/-- Inner rule loop of `calculate_stats` for one detection: fold the
scoring rules over (stats, classified-as labels). -/
def applyRulesToDetection (cfg : Config) (ba : ActionKeywords) (d : DetIn)
    (stats : List (String × ℤ)) : List (String × ℤ) × List String :=
  (SCORING_RULES cfg).foldl
    (fun acc r =>
      if r.matchesAction (strLower d.action) ba ∧ r.confidence_threshold < d.confidence
      then (incrStat acc.1 r.stat_name r.points_value, acc.2 ++ [r.label])
      else acc)
    (stats, [])

/-- The labels appended to a single detection's `classified_as` list by
the rule loop. -/
def detectionLabels (cfg : Config) (ba : ActionKeywords) (d : DetIn) :
    List String :=
  (applyRulesToDetection cfg ba d (buildInitialStats cfg)).2

/-- The sentinel disposition for a detection that fires no rule. -/
def IGNORED_SENTINEL : String := "IGNORED (below threshold or no match)"

/-- The rendered `classified_as` string for one detection. -/
def renderClassifiedAs (labels : List String) : String :=
  if labels.isEmpty then IGNORED_SENTINEL else String.intercalate ", " labels

/-- A detection after `calculate_stats` has attached `classified_as`. -/
structure DetOut where
  action : String
  confidence : ℚ
  classified_as : String

/-- Source function `calculate_stats`: fold the detections over the zeroed stats,
annotating each with its disposition string. -/
def calculate_stats (cfg : Config) (detections : List DetIn)
    (ba : ActionKeywords) : List (String × ℤ) × List DetOut :=
  detections.foldl
    (fun acc d =>
      let step := applyRulesToDetection cfg ba d acc.1
      (step.1, acc.2 ++ [{ action := d.action, confidence := d.confidence
                           classified_as := renderClassifiedAs step.2 }]))
    (buildInitialStats cfg, [])

/-- The five-key stats map initialized by the legacy pipeline
(`analyze.py` `analyze_video`), which does include "steals" and
"rebounds" at 0. -/
def analyzeInitialStats : List (String × ℤ) :=
  [("points", 0), ("assists", 0), ("steals", 0), ("blocks", 0), ("rebounds", 0)]

/-! ## Clip Extractor (`services/video_extraction_service.py`) -/

/-- The frame-reading loop of `extract_clips`: append each frame to the
buffer; when the buffer length reaches `frames_per_clip`, emit a clip
tagged with `frame_count - frames_per_clip` and drop the first `stride`
buffered frames (Python slice `frames_buffer[stride:]`).  The loop
condition `len(clips) < max_clips` is checked before each read. -/
def extractClipsLoop (fpc stride : ℤ) (maxClips : ℕ) :
    List α → List α → ℕ → List (ℤ × List α) → List (ℤ × List α)
  | [], _, _, clips => clips
  | f :: rest, buffer, frameCount, clips =>
    if maxClips ≤ clips.length then clips
    else
      let buffer' := buffer ++ [f]
      let frameCount' := frameCount + 1
      if (buffer'.length : ℤ) = fpc then
        extractClipsLoop fpc stride maxClips rest (pySliceFrom buffer' stride)
          frameCount' (clips ++ [((frameCount' : ℤ) - fpc, buffer')])
      else
        extractClipsLoop fpc stride maxClips rest buffer' frameCount' clips

/-- Source function `extract_clips`: `frames_per_clip = int(fps * clip_duration)`,
`stride = int(frames_per_clip * (1 - overlap))`, then the buffering loop.
The video decoding collaborator is abstracted to the list of decoded
frames; the only raise in the source is for an unopenable video, which
is that collaborator's failure and has no counterpart once the frame
list is given.  No validation of `fps` or `frames_per_clip` is performed. -/
def extract_clips (frames : List α) (fps clipDuration overlap : ℚ)
    (maxClips : ℕ) : List (ℤ × List α) × ℚ :=
  let fpc := pyInt (fps * clipDuration)
  let stride := pyInt ((fpc : ℚ) * (1 - overlap))
  (extractClipsLoop fpc stride maxClips frames [] 0 [], fps)

/-! ## Trajectory Heuristic Classifier
(`services/classifiers/yolo_classifier.py`, `_analyze_trajectory`) -/

/-- The `np.sign` of a rational. -/
def qSign (q : ℚ) : ℤ :=
  if q < 0 then -1 else if q = 0 then 0 else 1

/-- The `np.diff` operation: consecutive differences of a list. -/
def adjacentDiffs (l : List ℚ) : List ℚ :=
  (l.zip l.tail).map (fun p => p.2 - p.1)

/-- The count `np.sum(np.diff(np.sign(v)) != 0)`: how many consecutive pairs of
velocity entries have different signs. -/
def countSignChanges (v : List ℚ) : ℕ :=
  let s := v.map qSign
  (s.zip s.tail).countP (fun p => p.1 != p.2)

/-- The derived quantities `_analyze_trajectory` computes from the valid
(non-absent) ball positions.  `totalMovementSq` is `dx² + dy²`, the
square of the source's `total_movement = sqrt(dx²+dy²)`: the source only
compares `total_movement` against non-negative constants, and those
comparisons are stated here on the squares, which is equivalent.
The mean velocities divide by the diff-list length; the guarded branch
only uses them when at least 3 positions exist, so the list is non-empty. -/
structure TrajFeatures where
  validCount : ℕ
  dx : ℚ
  dy : ℚ
  avgXVel : ℚ
  avgYVel : ℚ
  yDirectionChanges : ℕ
  totalMovementSq : ℚ
  midY : ℚ
  firstY : ℚ
  lastY : ℚ

/-- Compute the trajectory features from the valid positions. -/
def trajFeatures (valid : List (ℚ × ℚ)) : TrajFeatures :=
  let xs := valid.map Prod.fst
  let ys := valid.map Prod.snd
  let xv := adjacentDiffs xs
  let yv := adjacentDiffs ys
  let dx := xs.getLastD 0 - xs.headD 0
  let dy := ys.getLastD 0 - ys.headD 0
  { validCount := valid.length
    dx := dx
    dy := dy
    avgXVel := (xv.map (fun q => |q|)).sum / (xv.length : ℚ)
    avgYVel := (yv.map (fun q => |q|)).sum / (yv.length : ℚ)
    yDirectionChanges := countSignChanges yv
    totalMovementSq := dx ^ 2 + dy ^ 2
    midY := ys.getD (ys.length / 2) 0
    firstY := ys.headD 0
    lastY := ys.getLastD 0 }

/-- Outer guard of the shooting branch: `dy < -0.1 and len(valid) > 5`. -/
def shootingOuterCond (t : TrajFeatures) : Prop :=
  t.dy < -(1/10) ∧ 5 < t.validCount

instance (t : TrajFeatures) : Decidable (shootingOuterCond t) :=
  inferInstanceAs (Decidable (_ ∧ _))

/-- Inner arc check of the shooting branch:
`mid_y < y_coords[0] and mid_y < y_coords[-1]`. -/
def shootingArcCond (t : TrajFeatures) : Prop :=
  t.midY < t.firstY ∧ t.midY < t.lastY

instance (t : TrajFeatures) : Decidable (shootingArcCond t) :=
  inferInstanceAs (Decidable (_ ∧ _))

/-- The full shooting rule (outer guard plus arc). -/
def shootingCond (t : TrajFeatures) : Prop :=
  shootingOuterCond t ∧ shootingArcCond t

instance (t : TrajFeatures) : Decidable (shootingCond t) :=
  inferInstanceAs (Decidable (_ ∧ _))

/-- Dribbling rule: `y_direction_changes >= 2 and avg_y_vel > 0.02`. -/
def dribblingCond (t : TrajFeatures) : Prop :=
  2 ≤ t.yDirectionChanges ∧ 1/50 < t.avgYVel

instance (t : TrajFeatures) : Decidable (dribblingCond t) :=
  inferInstanceAs (Decidable (_ ∧ _))

/-- Passing rule: `avg_x_vel > avg_y_vel * 1.5 and total_movement > 0.15`
(the movement comparison stated on squares). -/
def passingCond (t : TrajFeatures) : Prop :=
  t.avgYVel * (3/2) < t.avgXVel ∧ (3/20) ^ 2 < t.totalMovementSq

instance (t : TrajFeatures) : Decidable (passingCond t) :=
  inferInstanceAs (Decidable (_ ∧ _))

/-- Catching rule: `total_movement < 0.05 and len(valid) > 5`
(the movement comparison stated on squares). -/
def catchingCond (t : TrajFeatures) : Prop :=
  t.totalMovementSq < (1/20) ^ 2 ∧ 5 < t.validCount

instance (t : TrajFeatures) : Decidable (catchingCond t) :=
  inferInstanceAs (Decidable (_ ∧ _))

/-- A classification confidence.  `val q` is the exact rational the source
computes; `passingOf msq` stands for `min(0.8, 0.4 + 2·sqrt(msq))`, kept
symbolic (with the squared movement recorded) because the square root is
irrational in general and no claim inspects its value. -/
inductive TrajConfidence where
  | val (q : ℚ)
  | passingOf (movementSq : ℚ)
  deriving DecidableEq

/-- The (action, confidence) part of a `ClassificationResult` from
`_analyze_trajectory` (the open metadata map is not modelled). -/
structure TrajResult where
  action : String
  confidence : TrajConfidence
  deriving DecidableEq

/-- Source method `_analyze_trajectory`.  The branch structure mirrors the source: the
`elif` chain hangs off the OUTER shooting guard, and the inner arc check
has no `else`, so an input passing the outer guard but failing the arc
keeps the initial `action = "unknown", confidence = 0.0`. -/
def analyzeTrajectory (positions : List (Option (ℚ × ℚ))) : TrajResult :=
  let valid := positions.filterMap id
  if valid.length < 3 then
    { action := "no_ball_detected", confidence := .val 0 }
  else
    let t := trajFeatures valid
    if shootingOuterCond t then
      if shootingArcCond t then
        { action := "shooting basketball"
          confidence := .val (min (9/10) (1/2 + |t.dy| * 2)) }
      else
        { action := "unknown", confidence := .val 0 }
    else if dribblingCond t then
      { action := "dribbling basketball"
        confidence := .val (min (17/20) (2/5 + (t.yDirectionChanges : ℚ) * (3/20))) }
    else if passingCond t then
      { action := "passing basketball", confidence := .passingOf t.totalMovementSq }
    else if catchingCond t then
      { action := "catching basketball", confidence := .val (3/5) }
    else
      { action := "playing basketball", confidence := .val (1/2) }

/-! ## Classifier initialization (`YOLOBallTrackingClassifier.initialize`) -/

/-- Observable state of a `YOLOBallTrackingClassifier`: the `_ready` flag,
whether `self.model` holds a model, and how many times the `YOLO(...)`
constructor (a model load) has been invoked. -/
structure YoloState where
  ready : Bool
  modelLoaded : Bool
  loadCount : ℕ
  deriving DecidableEq

/-- Source method `initialize`: unconditionally construct `YOLO(self.model_path)` (one
load attempt), then set `_ready`/`model` according to whether the load
raised.  There is no early return for an already-ready classifier. -/
def yoloInitialize (s : YoloState) (loadSucceeds : Bool) : YoloState × Bool :=
  if loadSucceeds then
    ({ ready := true, modelLoaded := true, loadCount := s.loadCount + 1 }, true)
  else
    ({ ready := false, modelLoaded := false, loadCount := s.loadCount + 1 }, false)

/-! ## Classifier registry and factories
(`services/classifiers/base.py`, `services/video_analysis_service.py`) -/

/-- The identifiers registered with `ClassifierRegistry` in
`services/classifiers/__init__.py`, in registration order. -/
def registeredClassifiers : List String :=
  ["videomae", "yolo", "timesformer", "x3d", "clip", "vivit", "slowfast"]

/-- The `ValueError` message of `ClassifierRegistry.get` for an unknown
name, enumerating the registered identifiers.  (Python wraps the name in
single quotes; the quote characters are omitted here.) -/
def unknownClassifierMessage (name : String) : String :=
  "Unknown classifier: " ++ name ++ ". Available: " ++
    String.intercalate ", " registeredClassifiers

/-- Source method `ClassifierRegistry.get`: return the factory for a registered name
(the factory is represented by the name it constructs), or raise a
`ValueError` enumerating the valid identifiers. -/
def registryGet (name : String) : Except String String :=
  if name ∈ registeredClassifiers then Except.ok name
  else Except.error (unknownClassifierMessage name)

/-- The `ClassifierFactory.create` of `services/video_analysis_service.py`,
the factory the pipeline orchestrator calls: a hard-coded if/elif chain
whose final `else` branch constructs the VideoMAE classifier for ANY
identifier not equal to the six recognized non-default ones.  The result
is the identifier of the classifier type actually instantiated/returned
(instance caching is elided; the selected branch is what matters). -/
def vasFactoryCreate (classifierType : String) : String :=
  if classifierType = "yolo" then "yolo"
  else if classifierType = "timesformer" then "timesformer"
  else if classifierType = "x3d" then "x3d"
  else if classifierType = "clip" then "clip"
  else if classifierType = "vivit" then "vivit"
  else if classifierType = "slowfast" then "slowfast"
  else "videomae"

/-! ## Session Store (`utils/storage.py`) -/

/-- One stored session record, as an ordered association list of fields.
JSON field values are abstracted to strings; `session_id` is one of the
fields, as in the serialized record. -/
abbrev SessionRecord := List (String × String)

/-- Whether a record's `session_id` field equals the given id
(Python `data['session_id'] == session_id`). -/
def recordHasId (r : SessionRecord) (sid : String) : Bool :=
  alookup "session_id" r == some sid

/-- Python `dict.update`: existing keys are overwritten in place keeping
their position, and keys new to the record are appended in update order. -/
def dictUpdate (r u : SessionRecord) : SessionRecord :=
  r.map (fun kv =>
    match alookup kv.1 u with
    | some v => (kv.1, v)
    | none => kv)
    ++ u.filter (fun kv => (alookup kv.1 r).isNone)

/-- The sessions file: `none` when `sessions.jsonl` does not exist,
otherwise the list of records, one per line, in file order. -/
abbrev SessionStore := Option (List SessionRecord)

/-- Source method `SessionStorage.get`: linear scan, first record with the id, or
not-found. -/
def storageGet (store : SessionStore) (sid : String) : Option SessionRecord :=
  match store with
  | none => none
  | some recs => recs.find? (fun r => recordHasId r sid)

/-- Source method `SessionStorage.update`: a missing file is a silent no-op; otherwise
every record whose id matches is merged with the updates and the whole
file is rewritten in the original order. -/
def storageUpdate (store : SessionStore) (sid : String)
    (updates : SessionRecord) : SessionStore :=
  match store with
  | none => none
  | some recs =>
    some (recs.map (fun r => if recordHasId r sid then dictUpdate r updates else r))

/-! ## Evaluation Harness (`services/results_evaluation_service.py`) -/

/-- One entry of `ground_truth['expected_detections']`. -/
structure ExpectedEvent where
  type : String
  timestamp : ℚ
  tolerance : ℚ
  deriving DecidableEq

/-- One stored detection as read by the evaluation harness (only the
`classified_as` and `timestamp` fields are consulted). -/
structure ActualDetection where
  classified_as : String
  timestamp : ℚ
  deriving DecidableEq

/-- A ground-truth specification. -/
structure GroundTruth where
  expected_detections : List ExpectedEvent
  expected_stats : List (String × ℤ)

/-- A stored session as read by the evaluation harness. -/
structure SessionResults where
  detections : List ActualDetection
  stats : List (String × ℤ)

/-- The per-detection test inside `match_detection`: the uppercased
expected type is a substring of the uppercased disposition, the
disposition contains "(+", and the timestamp is within tolerance. -/
def detectionMatchesExpected (e : ExpectedEvent) (d : ActualDetection) : Bool :=
  strContains (strUpper d.classified_as) (strUpper e.type)
    && strContains (strUpper d.classified_as) "(+"
    && decide (|e.timestamp - d.timestamp| ≤ e.tolerance)

/-- Source function `match_detection`: first detection in list order satisfying the test.
It scans the full list it is given; it receives no record of previously
matched detections. -/
def match_detection (e : ExpectedEvent) (dets : List ActualDetection) :
    Option ActualDetection :=
  dets.find? (fun d => detectionMatchesExpected e d)

/-- A true-positive entry (`EvaluationResult.add_true_positive`). -/
structure TruePositive where
  type : String
  expected_time : ℚ
  actual_time : ℚ
  time_error : ℚ
  deriving DecidableEq

/-- A false-positive entry (`EvaluationResult.add_false_positive`). -/
structure FalsePositive where
  type : String
  timestamp : ℚ
  deriving DecidableEq

/-- A false-negative entry (`EvaluationResult.add_false_negative`). -/
structure FalseNegative where
  type : String
  expected_time : ℚ
  deriving DecidableEq

/-- Build the true-positive entry for a matched pair. -/
def mkTruePositive (e : ExpectedEvent) (d : ActualDetection) : TruePositive :=
  { type := e.type, expected_time := e.timestamp, actual_time := d.timestamp
    time_error := |e.timestamp - d.timestamp| }

/-- The `EvaluationResult` accumulated by `evaluate_detections`. -/
structure EvaluationResult where
  true_positives : List TruePositive
  false_positives : List FalsePositive
  false_negatives : List FalseNegative
  stats_correct : List (String × ℤ)
  stats_errors : List (String × ℤ × ℤ)
  deriving DecidableEq

/-- The index-marking loop of `evaluate_detections`
(`for i, det in enumerate(actual_detections): if det == detection: ...`)
— the first index from `i` on holding a detection equal to `d`. -/
def firstEqIndexFrom (d : ActualDetection) :
    List ActualDetection → ℕ → Option ℕ
  | [], _ => none
  | x :: rest, i => if x = d then some i else firstEqIndexFrom d rest (i + 1)

/-- First pass of `evaluate_detections` over the expected events:
each expected event is matched by `match_detection` against the FULL
detection list; on a match the first index holding an equal detection is
added to `matched_indices`, otherwise a false negative is recorded. -/
def expectedPass (dets : List ActualDetection) :
    List ExpectedEvent → List TruePositive × List FalseNegative × List ℕ
  | [] => ([], [], [])
  | e :: rest =>
    let acc := expectedPass dets rest
    match match_detection e dets with
    | some d =>
      let idx := (firstEqIndexFrom d dets 0).getD 0
      (mkTruePositive e d :: acc.1, acc.2.1, idx :: acc.2.2)
    | none =>
      (acc.1, ({ type := e.type, expected_time := e.timestamp } : FalseNegative) :: acc.2.1,
        acc.2.2)

/-- Source function `evaluate_detections`. -/
def evaluate_detections (gt : GroundTruth) (sess : SessionResults) :
    EvaluationResult :=
  let dets := sess.detections
  let first := expectedPass dets gt.expected_detections
  let matchedIdx := first.2.2
  let falsePos := (dets.enum.filter (fun p =>
      !(matchedIdx.contains p.1) && !(strContains p.2.classified_as "IGNORED"))).map
    (fun p => ({ type := p.2.classified_as, timestamp := p.2.timestamp } : FalsePositive))
  let statsPass := gt.expected_stats.foldl
    (fun (acc : List (String × ℤ) × List (String × ℤ × ℤ)) p =>
      let actual := alookupD p.1 sess.stats 0
      if p.2 = actual then (acc.1 ++ [(p.1, p.2)], acc.2)
      else (acc.1, acc.2 ++ [(p.1, p.2, actual)]))
    ([], [])
  { true_positives := first.1, false_positives := falsePos
    false_negatives := first.2.1
    stats_correct := statsPass.1, stats_errors := statsPass.2 }

/-- Python `round(q, 2)` modelled as rounding to the nearest hundredth.
(Python rounds half to even; the two differ only on exact `.xx5` ties,
which no evaluated quantity in this development hits.) -/
def round2 (q : ℚ) : ℚ :=
  ((round (q * 100) : ℤ) : ℚ) / 100

/-- The score record returned by `calculate_score`.  The source's
`recall` field is named `recall_` here because `recall` is reserved. -/
structure Score where
  overall_score : ℚ
  precision : ℚ
  recall_ : ℚ
  f1_score : ℚ
  stats_accuracy : ℚ
  timing_accuracy : ℚ
  avg_time_error_seconds : ℚ
  true_positives : ℕ
  false_positives : ℕ
  false_negatives : ℕ
  deriving DecidableEq

/-- Source function `calculate_score`. -/
def calculate_score (result : EvaluationResult) (gt : GroundTruth) : Score :=
  let tp := result.true_positives.length
  let fp := result.false_positives.length
  let fn := result.false_negatives.length
  let precision : ℚ := if 0 < tp + fp then (tp : ℚ) / ((tp : ℚ) + (fp : ℚ)) else 0
  let rcl : ℚ := if 0 < tp + fn then (tp : ℚ) / ((tp : ℚ) + (fn : ℚ)) else 0
  let f1 : ℚ :=
    if 0 < precision + rcl then 2 * (precision * rcl) / (precision + rcl) else 0
  let totalStats := gt.expected_stats.length
  let correctStats := result.stats_correct.length
  let statsAccuracy : ℚ :=
    if 0 < totalStats then (correctStats : ℚ) / (totalStats : ℚ) * 100 else 0
  let avgTimeError : ℚ :=
    if result.true_positives.isEmpty then 0
    else (result.true_positives.map (fun t => t.time_error)).sum / (tp : ℚ)
  let timingScore : ℚ := max 0 (100 - avgTimeError * 20)
  let overall : ℚ := f1 * 50 + statsAccuracy * (3/10) + timingScore * (1/5)
  { overall_score := round2 overall
    precision := round2 (precision * 100)
    recall_ := round2 (rcl * 100)
    f1_score := round2 (f1 * 100)
    stats_accuracy := round2 statsAccuracy
    timing_accuracy := round2 timingScore
    avg_time_error_seconds := round2 avgTimeError
    true_positives := tp
    false_positives := fp
    false_negatives := fn }

/-! ## Theorems -/

/-- Incrementing a stat never changes the key list of the stats dict. -/
theorem incrStat_keys (stats : List (String × ℤ)) (name : String) (v : ℤ) :
    (incrStat stats name v).map Prod.fst = stats.map Prod.fst := by
  induction stats with
  | nil => rfl
  | cons p rest ih =>
    simp only [incrStat, List.map_cons] at ih ⊢
    have h1 : (if p.1 = name then (p.1, p.2 + v) else p).1 = p.1 := by
      split <;> rfl
    rw [h1, ih]

/-- The rule loop for one detection never changes the key list of the
stats dict. -/
theorem applyRulesToDetection_keys (cfg : Config) (ba : ActionKeywords)
    (d : DetIn) (stats : List (String × ℤ)) :
    ((applyRulesToDetection cfg ba d stats).1).map Prod.fst = stats.map Prod.fst := by
  simp only [applyRulesToDetection, SCORING_RULES, List.foldl]
  split <;> split <;> split <;> simp [incrStat_keys]

/-- The detection fold of `calculate_stats` never changes the key list of
the stats dict. -/
theorem calculate_stats_fold_keys (cfg : Config) (ba : ActionKeywords) :
    ∀ (dets : List DetIn) (acc : List (String × ℤ) × List DetOut),
      ((dets.foldl
        (fun acc d =>
          let step := applyRulesToDetection cfg ba d acc.1
          (step.1, acc.2 ++ [{ action := d.action, confidence := d.confidence
                               classified_as := renderClassifiedAs step.2 }]))
        acc).1).map Prod.fst = (acc.1).map Prod.fst := by
  intro dets
  induction dets with
  | nil => intro acc; rfl
  | cons d rest ih =>
    intro acc
    simp only [List.foldl]
    rw [ih]
    exact applyRulesToDetection_keys cfg ba d acc.1

/-- Claim C1, counterexample: on the empty detection list with the default
mapping and default thresholds, the stats map produced by
`calculate_stats` has no "steals" key and no "rebounds" key, so the
claimed always-present reserved keys are absent. -/
theorem calculate_stats_missing_reserved_keys :
    alookup "steals" (calculate_stats defaultConfig [] DEFAULT_ACTION_KEYWORDS).1 = none ∧
    alookup "rebounds" (calculate_stats defaultConfig [] DEFAULT_ACTION_KEYWORDS).1 = none := by
  decide

/-- Claim C1, amended: for every input detection list, every action-keyword
mapping and every threshold configuration, the stats map produced by
`calculate_stats` has exactly the keys "points", "assists", "blocks" (in
rule order) — "steals" and "rebounds" are not among them; the five-key
map with "steals" and "rebounds" at 0 is built separately by the legacy
`analyze.py` pipeline. -/
theorem calculate_stats_keys_exactly_rules (cfg : Config) (dets : List DetIn)
    (ba : ActionKeywords) :
    (calculate_stats cfg dets ba).1.map Prod.fst = ["points", "assists", "blocks"] ∧
    alookup "steals" analyzeInitialStats = some 0 ∧
    alookup "rebounds" analyzeInitialStats = some 0 := by
  refine ⟨?_, by decide, by decide⟩
  rw [calculate_stats, calculate_stats_fold_keys]
  rfl

/-- Claim C7: a scoring rule fires only when the detection confidence
strictly exceeds the rule's threshold; a detection whose confidence
exactly equals the threshold of a rule gets neither that rule's label in
its disposition nor any points on that rule's stat (which stays 0 for a
single-detection run). -/
theorem rule_threshold_strict (cfg : Config) (ba : ActionKeywords) (d : DetIn)
    (r : ScoringRule) (hr : r ∈ SCORING_RULES cfg)
    (hc : d.confidence = r.confidence_threshold) :
    r.label ∉ detectionLabels cfg ba d ∧
    alookup r.stat_name (calculate_stats cfg [d] ba).1 = some 0 := by
  simp only [SCORING_RULES, List.mem_cons, List.mem_singleton,
    List.not_mem_nil, or_false] at hr
  have hlt : ∀ q : ℚ, ¬ q < q := fun q => lt_irrefl q
  rcases hr with rfl | rfl | rfl <;>
    · simp only [shotRule, assistRule, blockRule] at hc
      simp only [detectionLabels, calculate_stats, applyRulesToDetection,
        SCORING_RULES, buildInitialStats, List.foldl, List.map,
        shotRule, assistRule, blockRule, hc]
      split_ifs <;>
        simp_all [incrStat, alookup, shotRule, assistRule, blockRule]

/-- Witness for claim C7: the shot rule at its default threshold 0.5, on a
detection labelled "shooting" with confidence exactly 0.5. -/
theorem rule_threshold_strict_witness :
    (shotRule defaultConfig ∈ SCORING_RULES defaultConfig ∧
      (({ action := "shooting", confidence := 1/2 } : DetIn)).confidence =
        (shotRule defaultConfig).confidence_threshold) ∧
    ("SHOT (+2 points)" ∉
        detectionLabels defaultConfig DEFAULT_ACTION_KEYWORDS
          { action := "shooting", confidence := 1/2 } ∧
      alookup "points"
        (calculate_stats defaultConfig
          [{ action := "shooting", confidence := 1/2 }] DEFAULT_ACTION_KEYWORDS).1 =
        some 0) :=
  ⟨⟨by simp [SCORING_RULES], rfl⟩,
    rule_threshold_strict defaultConfig DEFAULT_ACTION_KEYWORDS
      { action := "shooting", confidence := 1/2 } (shotRule defaultConfig)
      (by simp [SCORING_RULES]) rfl⟩

/-- Claim C4: with fps 30, clip duration 2.0 s, overlap 0.5 and the default
clip cap 30, a 200-frame source yields exactly five clips of 60 frames
each, starting at frames 0, 30, 60, 90, 120, in that order. -/
theorem extract_clips_windowing_200 :
    (extract_clips (List.range 200) 30 2 (1/2) 30).1.map
        (fun c => (c.1, c.2.length)) =
      [((0 : ℤ), 60), (30, 60), (60, 60), (90, 60), (120, 60)] := by
  have hfpc : pyInt ((30:ℚ) * 2) = 60 := by
    have h : ((30:ℚ) * 2) = ((60:ℤ):ℚ) := by norm_num
    rw [h]; simp [pyInt]
  have hstride : pyInt (((60:ℤ) : ℚ) * (1 - 1/2)) = 30 := by
    have h : (((60:ℤ) : ℚ) * (1 - 1/2)) = ((30:ℤ):ℚ) := by norm_num
    rw [h]; simp [pyInt]
  simp only [extract_clips]
  rw [hfpc, hstride]
  decide

/-- If `frames_per_clip` is non-positive, the buffer (whose length is at
least 1 at every comparison) can never reach it, so the loop emits no
clip at all. -/
theorem extractClipsLoop_no_emit (fpc stride : ℤ) (M : ℕ) (h : fpc ≤ 0) :
    ∀ (rem buffer : List α) (fc : ℕ),
      extractClipsLoop fpc stride M rem buffer fc [] = [] := by
  intro rem
  induction rem with
  | nil => intro buffer fc; rfl
  | cons f rest ih =>
    intro buffer fc
    simp only [extractClipsLoop]
    split
    · rfl
    · have hne : ((buffer ++ [f]).length : ℤ) ≠ fpc := by
        have hlen : (buffer ++ [f]).length = buffer.length + 1 := by simp
        omega
      rw [if_neg hne]
      exact ih _ _

/-- Claim C5, counterexample: with `fps = 0` (so `frames_per_clip = 0`) and
ten source frames, `extract_clips` raises nothing and returns normally
with zero clips — the silent outcome the claim rules out.  (The source's
only `raise` is for an unopenable video file, a collaborator failure
outside this path.) -/
theorem extract_clips_fps_zero_returns_normally :
    (extract_clips (List.range 10) (0 : ℚ) 2 (1/2) 30).1 = [] ∧
    (extract_clips (List.range 10) (0 : ℚ) 2 (1/2) 30).2 = 0 := by
  constructor
  · have h : pyInt ((0:ℚ) * 2) ≤ 0 := by
      have h0 : ((0:ℚ) * 2) = ((0:ℤ):ℚ) := by norm_num
      rw [h0]; simp [pyInt]
    simp only [extract_clips]
    exact extractClipsLoop_no_emit _ _ _ h _ [] 0
  · rfl

/-- Claim C5, amended: when `fps ≤ 0` or more generally whenever the
computed `frames_per_clip = int(fps * clip_duration)` is non-positive,
`extract_clips` does not raise a configuration error — it returns
normally with an empty clip list, for every frame source. -/
theorem extract_clips_nonpositive_config_silent (frames : List α)
    (fps clipDuration overlap : ℚ) (maxClips : ℕ)
    (h : pyInt (fps * clipDuration) ≤ 0) :
    (extract_clips frames fps clipDuration overlap maxClips).1 = [] := by
  simp only [extract_clips]
  exact extractClipsLoop_no_emit _ _ _ h frames [] 0

/-- Witness for the amended claim C5 at `fps = 0` with ten frames. -/
theorem extract_clips_nonpositive_config_silent_witness :
    pyInt ((0:ℚ) * 2) ≤ 0 ∧
    (extract_clips (List.range 20) (0 : ℚ) 2 (1/2) 30).1 = [] := by
  have h : pyInt ((0:ℚ) * 2) ≤ 0 := by
    have h0 : ((0:ℚ) * 2) = ((0:ℤ):ℚ) := by norm_num
    rw [h0]; simp [pyInt]
  exact ⟨h, extract_clips_nonpositive_config_silent (List.range 20) 0 2 (1/2) 30 h⟩

/-- Claim C9, counterexample: a ready classifier that has loaded its model
once, re-initialized, performs a second model load — `initialize` on a
ready classifier is not a no-op and does reload its resources. -/
theorem yolo_initialize_reloads_when_ready :
    (yoloInitialize { ready := true, modelLoaded := true, loadCount := 1 } true).1.loadCount = 2 ∧
    (yoloInitialize { ready := true, modelLoaded := true, loadCount := 1 } true).1.loadCount ≠ 1 := by
  decide

/-- Claim C9, amended: `initialize` performs a model load on every call —
there is no early return for an already-ready classifier — so
`initialize; initialize` equals a single `initialize` in the observable
ready/model state and return flag, but performs two loads, not one. -/
theorem yolo_initialize_idempotent_state_but_reloads (s : YoloState) (b : Bool) :
    (yoloInitialize (yoloInitialize s b).1 b).1.ready = (yoloInitialize s b).1.ready ∧
    (yoloInitialize (yoloInitialize s b).1 b).1.modelLoaded =
      (yoloInitialize s b).1.modelLoaded ∧
    (yoloInitialize (yoloInitialize s b).1 b).2 = (yoloInitialize s b).2 ∧
    (yoloInitialize (yoloInitialize s b).1 b).1.loadCount = s.loadCount + 2 := by
  cases b <;> simp [yoloInitialize]

/-- Claim C8, counterexample: the pipeline orchestrator's factory
(`video_analysis_service.ClassifierFactory.create`) silently substitutes
the default VideoMAE classifier for the unregistered identifier
"resnet" instead of failing. -/
theorem vas_factory_silently_defaults_unknown :
    "resnet" ∉ registeredClassifiers ∧ vasFactoryCreate "resnet" = "videomae" := by
  decide

/-- Claim C8, amended: for an unregistered identifier,
`ClassifierRegistry.get` raises a `ValueError` enumerating the valid
identifiers, but the pipeline orchestrator's own
`ClassifierFactory.create` in `video_analysis_service.py` returns the
default VideoMAE classifier without any error. -/
theorem classifier_lookup_unknown (name : String)
    (h : name ∉ registeredClassifiers) :
    registryGet name = Except.error
      ("Unknown classifier: " ++ name ++ ". Available: " ++
        "videomae, yolo, timesformer, x3d, clip, vivit, slowfast") ∧
    vasFactoryCreate name = "videomae" := by
  have hs : name ≠ "yolo" ∧ name ≠ "timesformer" ∧ name ≠ "x3d" ∧
      name ≠ "clip" ∧ name ≠ "vivit" ∧ name ≠ "slowfast" := by
    simp only [registeredClassifiers, List.mem_cons, List.not_mem_nil,
      or_false, not_or] at h
    exact ⟨h.2.1, h.2.2.1, h.2.2.2.1, h.2.2.2.2.1, h.2.2.2.2.2.1, h.2.2.2.2.2.2⟩
  constructor
  · have hi : String.intercalate ", " registeredClassifiers =
        "videomae, yolo, timesformer, x3d, clip, vivit, slowfast" := by decide
    simp only [registryGet, if_neg h, unknownClassifierMessage, hi]
  · simp [vasFactoryCreate, hs.1, hs.2.1, hs.2.2.1, hs.2.2.2.1,
      hs.2.2.2.2.1, hs.2.2.2.2.2]

/-- Witness for the amended claim C8 at the unregistered identifier
"resnet". -/
theorem classifier_lookup_unknown_witness :
    "resnet" ∉ registeredClassifiers ∧
    (registryGet "resnet" = Except.error
        ("Unknown classifier: " ++ "resnet" ++ ". Available: " ++
          "videomae, yolo, timesformer, x3d, clip, vivit, slowfast") ∧
      vasFactoryCreate "resnet" = "videomae") :=
  ⟨by decide, classifier_lookup_unknown "resnet" (by decide)⟩

/-- A straight, steadily rising ball (image-space y strictly decreasing):
seven valid positions with net upward displacement but no arc. -/
def exC3 : List (Option (ℚ × ℚ)) :=
  [some (1/2, 9/10), some (1/2, 4/5), some (1/2, 7/10), some (1/2, 3/5),
   some (1/2, 1/2), some (1/2, 2/5), some (1/2, 3/10)]

/-- The trajectory features of `exC3`. -/
theorem exC3_features : trajFeatures (exC3.filterMap id) =
    { validCount := 7, dx := 0, dy := -(3/5), avgXVel := 0, avgYVel := 1/10
      yDirectionChanges := 0, totalMovementSq := 9/25, midY := 3/5
      firstY := 9/10, lastY := 3/10 } := by
  norm_num [trajFeatures, adjacentDiffs, countSignChanges, qSign, exC3,
    List.filterMap, List.getD, TrajFeatures.mk.injEq, abs_of_nonneg]

/-- Claim C3, counterexample: `exC3` has 7 valid positions and satisfies
none of the four trajectory rules (shooting, dribbling, passing,
catching), yet `_analyze_trajectory` returns action "unknown" with
confidence 0.0 — not the claimed "playing" with confidence 0.5 — because
the input passes the shooting pre-guard (`dy < -0.1` with more than 5
positions) but fails the arc check, and the `elif` chain is skipped. -/
theorem trajectory_unknown_counterexample :
    3 ≤ (exC3.filterMap id).length ∧
    ¬ shootingCond (trajFeatures (exC3.filterMap id)) ∧
    ¬ dribblingCond (trajFeatures (exC3.filterMap id)) ∧
    ¬ passingCond (trajFeatures (exC3.filterMap id)) ∧
    ¬ catchingCond (trajFeatures (exC3.filterMap id)) ∧
    analyzeTrajectory exC3 = { action := "unknown", confidence := .val 0 } := by
  have hfeat := exC3_features
  refine ⟨by decide, ?_, ?_, ?_, ?_, ?_⟩
  · rw [hfeat]
    norm_num [shootingCond, shootingOuterCond, shootingArcCond]
  · rw [hfeat]
    norm_num [dribblingCond]
  · rw [hfeat]
    norm_num [passingCond]
  · rw [hfeat]
    norm_num [catchingCond]
  · simp only [analyzeTrajectory]
    rw [if_neg (by decide : ¬ (exC3.filterMap id).length < 3), hfeat,
      if_pos (by norm_num [shootingOuterCond]),
      if_neg (by norm_num [shootingArcCond])]

/-- Claim C3, amended: for every position list with at least 3 valid
positions that satisfies none of the four trajectory rules AND does not
satisfy the shooting pre-guard (`dy < -0.1` with more than 5 valid
positions), trajectory analysis returns the generic "playing basketball"
action with confidence exactly 0.5.  Inputs that pass the pre-guard but
fail the arc check instead yield action "unknown" with confidence 0.0,
so the five rules are not exhaustive. -/
theorem trajectory_playing_fallback (positions : List (Option (ℚ × ℚ)))
    (h3 : ¬ (positions.filterMap id).length < 3)
    (hshoot : ¬ shootingOuterCond (trajFeatures (positions.filterMap id)))
    (hdrib : ¬ dribblingCond (trajFeatures (positions.filterMap id)))
    (hpass : ¬ passingCond (trajFeatures (positions.filterMap id)))
    (hcatch : ¬ catchingCond (trajFeatures (positions.filterMap id))) :
    analyzeTrajectory positions =
      { action := "playing basketball", confidence := .val (1/2) } := by
  simp only [analyzeTrajectory]
  rw [if_neg h3, if_neg hshoot, if_neg hdrib, if_neg hpass, if_neg hcatch]

/-- A slow, nearly still horizontal drift: three valid positions firing
no rule and no pre-guard. -/
def wC3 : List (Option (ℚ × ℚ)) :=
  [some (0, 0), some (1/100, 0), some (1/50, 0)]

/-- The trajectory features of `wC3`. -/
theorem wC3_features : trajFeatures (wC3.filterMap id) =
    { validCount := 3, dx := 1/50, dy := 0, avgXVel := 1/100, avgYVel := 0
      yDirectionChanges := 0, totalMovementSq := 1/2500, midY := 0
      firstY := 0, lastY := 0 } := by
  norm_num [trajFeatures, adjacentDiffs, countSignChanges, qSign, wC3,
    List.filterMap, List.getD, TrajFeatures.mk.injEq, abs_of_nonneg]

/-- Witness for the amended claim C3 on `wC3`. -/
theorem trajectory_playing_fallback_witness :
    (¬ (wC3.filterMap id).length < 3 ∧
      ¬ shootingOuterCond (trajFeatures (wC3.filterMap id)) ∧
      ¬ dribblingCond (trajFeatures (wC3.filterMap id)) ∧
      ¬ passingCond (trajFeatures (wC3.filterMap id)) ∧
      ¬ catchingCond (trajFeatures (wC3.filterMap id))) ∧
    analyzeTrajectory wC3 =
      { action := "playing basketball", confidence := .val (1/2) } := by
  have hfeat := wC3_features
  have h3 : ¬ (wC3.filterMap id).length < 3 := by decide
  have hshoot : ¬ shootingOuterCond (trajFeatures (wC3.filterMap id)) := by
    rw [hfeat]; norm_num [shootingOuterCond]
  have hdrib : ¬ dribblingCond (trajFeatures (wC3.filterMap id)) := by
    rw [hfeat]; norm_num [dribblingCond]
  have hpass : ¬ passingCond (trajFeatures (wC3.filterMap id)) := by
    rw [hfeat]; norm_num [passingCond]
  have hcatch : ¬ catchingCond (trajFeatures (wC3.filterMap id)) := by
    rw [hfeat]; norm_num [catchingCond]
  exact ⟨⟨h3, hshoot, hdrib, hpass, hcatch⟩,
    trajectory_playing_fallback wC3 h3 hshoot hdrib hpass hcatch⟩

/-- Updating with an id no record carries leaves the record list
unchanged. -/
theorem map_update_no_match (recs : List SessionRecord) (sid : String)
    (updates : SessionRecord) (h : ∀ r ∈ recs, ¬ recordHasId r sid) :
    recs.map (fun r => if recordHasId r sid then dictUpdate r updates else r) =
      recs := by
  induction recs with
  | nil => rfl
  | cons a rest ih =>
    simp only [List.map_cons]
    rw [if_neg (h a (by simp)), ih (fun r hr => h r (by simp [hr]))]

/-- Claim C10: `SessionStorage.update` is a silent no-op on a missing
store file; on an existing file it rewrites the store applying the field
merge to EVERY record whose `session_id` matches (unlike `get`, which
returns only the first match), preserving record order and leaving every
non-matching record unchanged (hence byte-identical when re-serialized,
one record per line); when no record matches, the store is unchanged and
no error is raised. -/
theorem storage_update_behavior (recs : List SessionRecord) (sid : String)
    (updates : SessionRecord) (r1 r2 : SessionRecord) :
    storageUpdate none sid updates = none ∧
    storageUpdate (some recs) sid updates =
      some (recs.map (fun r =>
        if recordHasId r sid then dictUpdate r updates else r)) ∧
    ((∀ r ∈ recs, ¬ recordHasId r sid) →
      storageUpdate (some recs) sid updates = some recs) ∧
    (recordHasId r1 sid → recordHasId r2 sid →
      storageUpdate (some [r1, r2]) sid updates =
        some [dictUpdate r1 updates, dictUpdate r2 updates] ∧
      storageGet (some [r1, r2]) sid = some r1) := by
  refine ⟨rfl, rfl, ?_, ?_⟩
  · intro h
    simp only [storageUpdate]
    rw [map_update_no_match recs sid updates h]
  · intro h1 h2
    constructor
    · simp [storageUpdate, h1, h2]
    · simp [storageGet, List.find?, h1]

/-- Witness for claim C10: a two-record store where both records carry the
target id (both are merged; `get` returns the first), and a one-record
store without the id (untouched), plus the missing-file no-op. -/
theorem storage_update_behavior_witness :
    ((∀ r ∈ ([[("session_id", "a")]] : List SessionRecord), ¬ recordHasId r "b") ∧
      recordHasId ([("session_id", "s"), ("x", "1")] : SessionRecord) "s" ∧
      recordHasId ([("session_id", "s"), ("y", "2")] : SessionRecord) "s") ∧
    storageUpdate (some [[("session_id", "a")]]) "b" [("e", "v")] =
      some [[("session_id", "a")]] ∧
    storageUpdate
        (some [[("session_id", "s"), ("x", "1")], [("session_id", "s"), ("y", "2")]])
        "s" [("e", "v")] =
      some [dictUpdate [("session_id", "s"), ("x", "1")] [("e", "v")],
        dictUpdate [("session_id", "s"), ("y", "2")] [("e", "v")]] ∧
    storageGet
        (some [[("session_id", "s"), ("x", "1")], [("session_id", "s"), ("y", "2")]])
        "s" =
      some [("session_id", "s"), ("x", "1")] := by
  refine ⟨⟨by decide, by decide, by decide⟩, ?_, ?_, ?_⟩
  · exact (storage_update_behavior [[("session_id", "a")]] "b" [("e", "v")]
      [] []).2.2.1 (by decide)
  · exact ((storage_update_behavior [] "s" [("e", "v")]
      [("session_id", "s"), ("x", "1")] [("session_id", "s"), ("y", "2")]).2.2.2
      (by decide) (by decide)).1
  · exact ((storage_update_behavior [] "s" [("e", "v")]
      [("session_id", "s"), ("x", "1")] [("session_id", "s"), ("y", "2")]).2.2.2
      (by decide) (by decide)).2

/-- The true-positive list accumulated by the first pass is exactly the
expected events filter-mapped through `match_detection` on the full
detection list: matching is independent per expected event. -/
theorem expectedPass_tps (dets : List ActualDetection) :
    ∀ exps : List ExpectedEvent,
      (expectedPass dets exps).1 =
        exps.filterMap (fun e => (match_detection e dets).map (mkTruePositive e)) := by
  intro exps
  induction exps with
  | nil => rfl
  | cons e rest ih =>
    simp only [expectedPass, List.filterMap_cons]
    cases h : match_detection e dets with
    | none => simp [h, ih]
    | some d => simp [h, ih]

/-- Claim C2, amended: `match_detection` scans the full detection list for
every expected event and receives no record of earlier matches, so a
detection taken as the first-fit match of one expected event CAN be
returned again as the match of a later expected event; the set of
matched indices excludes matched detections only from false-positive
counting.  Formally, the true positives are the expected events
filter-mapped independently through `match_detection` over the whole
list. -/
theorem match_not_consumed (gt : GroundTruth) (sess : SessionResults) :
    (evaluate_detections gt sess).true_positives =
      gt.expected_detections.filterMap
        (fun e => (match_detection e sess.detections).map (mkTruePositive e)) := by
  simp only [evaluate_detections]
  exact expectedPass_tps _ _

/-- Ground truth with two expected shots 0.5 s apart, both within
tolerance of one detection. -/
def gtC2 : GroundTruth :=
  { expected_detections :=
      [{ type := "shot", timestamp := 10, tolerance := 1 },
       { type := "shot", timestamp := 21/2, tolerance := 1 }]
    expected_stats := [] }

/-- Session with a single detection at 10.4 s. -/
def sessC2 : SessionResults :=
  { detections := [{ classified_as := "SHOT (+2 points)", timestamp := 52/5 }]
    stats := [] }

/-- Claim C2, counterexample: with two expected shot events and a single
detection at 10.4 s matching both, evaluation returns TWO true positives,
both matched to that same detection (same actual time 10.4), with no
false negative — the detection is consumed for one expected event yet
still returned as the match of the second. -/
theorem evaluate_detections_double_match :
    sessC2.detections.length = 1 ∧
    (evaluate_detections gtC2 sessC2).true_positives.length = 2 ∧
    (evaluate_detections gtC2 sessC2).true_positives.map (fun t => t.actual_time) =
      [52/5, 52/5] ∧
    (evaluate_detections gtC2 sessC2).false_negatives = [] ∧
    (evaluate_detections gtC2 sessC2).false_positives = [] := by
  have hd1 : detectionMatchesExpected
      { type := "shot", timestamp := 10, tolerance := 1 }
      { classified_as := "SHOT (+2 points)", timestamp := 52/5 } = true := by
    simp only [detectionMatchesExpected, Bool.and_eq_true, decide_eq_true_eq]
    refine ⟨⟨by decide, by decide⟩, ?_⟩
    have hsub : (10:ℚ) - 52/5 = -(2/5) := by norm_num
    rw [hsub, abs_neg, abs_of_nonneg (by norm_num : (0:ℚ) ≤ 2/5)]
    norm_num
  have hd2 : detectionMatchesExpected
      { type := "shot", timestamp := 21/2, tolerance := 1 }
      { classified_as := "SHOT (+2 points)", timestamp := 52/5 } = true := by
    simp only [detectionMatchesExpected, Bool.and_eq_true, decide_eq_true_eq]
    refine ⟨⟨by decide, by decide⟩, ?_⟩
    have hsub : (21/2:ℚ) - 52/5 = 1/10 := by norm_num
    rw [hsub, abs_of_nonneg (by norm_num : (0:ℚ) ≤ 1/10)]
    norm_num
  refine ⟨rfl, ?_, ?_, ?_, ?_⟩ <;>
    simp [evaluate_detections, expectedPass, gtC2, sessC2, match_detection,
      List.find?, hd1, hd2, firstEqIndexFrom, mkTruePositive, List.enum,
      List.enumFrom]

/-- The ground truth of the evaluation round-trip example: one expected
shot at 10.0 s with tolerance 1.0 s, expected stats points = 2. -/
def gtC6 : GroundTruth :=
  { expected_detections := [{ type := "shot", timestamp := 10, tolerance := 1 }]
    expected_stats := [("points", 2)] }

/-- The session of the evaluation round-trip example: one detection
classified "SHOT (+2 points)" at 10.4 s, stats points = 2. -/
def sessC6 : SessionResults :=
  { detections := [{ classified_as := "SHOT (+2 points)", timestamp := 52/5 }]
    stats := [("points", 2)] }

/-- Claim C6: on the round-trip example, evaluation yields 1 true positive
(time error 0.4 s), 0 false positives, 0 false negatives and a correct
"points" stat, and scoring yields precision = recall = f1 = 100,
stats_accuracy = 100, avg_time_error = 0.4, timing_score = 92 and
overall_score = 50 + 30 + 18.4 = 98.4. -/
theorem evaluation_round_trip :
    evaluate_detections gtC6 sessC6 =
      { true_positives :=
          [{ type := "shot", expected_time := 10, actual_time := 52/5, time_error := 2/5 }]
        false_positives := [], false_negatives := []
        stats_correct := [("points", 2)], stats_errors := [] } ∧
    calculate_score (evaluate_detections gtC6 sessC6) gtC6 =
      { overall_score := 492/5, precision := 100, recall_ := 100
        f1_score := 100, stats_accuracy := 100, timing_accuracy := 92
        avg_time_error_seconds := 2/5
        true_positives := 1, false_positives := 0, false_negatives := 0 } := by
  have habs : |(10:ℚ) - 52/5| = 2/5 := by
    have hsub : (10:ℚ) - 52/5 = -(2/5) := by norm_num
    rw [hsub, abs_neg, abs_of_nonneg (by norm_num : (0:ℚ) ≤ 2/5)]
  have hd : detectionMatchesExpected
      { type := "shot", timestamp := 10, tolerance := 1 }
      { classified_as := "SHOT (+2 points)", timestamp := 52/5 } = true := by
    simp only [detectionMatchesExpected, Bool.and_eq_true, decide_eq_true_eq]
    exact ⟨⟨by decide, by decide⟩, by rw [habs]; norm_num⟩
  have hEval : evaluate_detections gtC6 sessC6 =
      { true_positives :=
          [{ type := "shot", expected_time := 10, actual_time := 52/5, time_error := 2/5 }]
        false_positives := [], false_negatives := []
        stats_correct := [("points", 2)], stats_errors := [] } := by
    simp [evaluate_detections, expectedPass, gtC6, sessC6, match_detection,
      List.find?, hd, firstEqIndexFrom, mkTruePositive, habs, List.enum,
      List.enumFrom, alookupD, alookup]
  refine ⟨hEval, ?_⟩
  rw [hEval]
  simp only [calculate_score, gtC6]
  norm_num [round2, round_eq, max_def, Score.mk.injEq]

end SugarRun
